import Mathlib

/-!
# Verification of the alewife publish-subscribe bus (src/src/lib.rs)

Shallow embedding of the library. The Rust code builds a
`HashMap<Topic, Vec<Sender<(Topic, Content)>>>` during a setup phase
(`Builder::add_subscriber`), freezes it with `Builder::build`, and then
`Publisher::publish` looks the topic up and sends a `(topic, content)` clone
into every registered sender; `Subscriber::fetch` drains its `Receiver`.

Modelling choices, each matched to a line of the source:
* an mpsc channel is identified by a natural-number id; the world state
  (`BusState`) holds, per channel, its queued messages and whether the
  consuming `Receiver` is still alive (the `Subscriber` handle not dropped);
* the `subscribers` map is an association list `Registry`; `regGet` is
  `HashMap::get`, `regPush` is `entry(topic).or_insert_with(Vec::new).push(tx)`;
* `Sender::send(..).unwrap_or(())` enqueues when the receiver is alive and is
  a silent no-op otherwise (`send`);
* `fetch` returns the whole queue in arrival order and leaves it empty,
  exactly what the `while let Ok(m) = try_recv()` loop observes sequentially.
-/

namespace Alewife

/-- A `Sender` handle is identified by the id of the mpsc channel it feeds;
`Sender::clone` yields a handle with the same id. -/
abbrev SenderId := Nat

/-- The `subscribers` field of `Publisher`:
`HashMap<Topic, Vec<Sender<(Topic, Content)>>>`, modelled as an association
list from topics to the ordered list of sender ids. -/
abbrev Registry (Topic : Type) := List (Topic × List SenderId)

/-- `self.subscribers.get(&topic)` (lib.rs line 78). -/
def regGet {Topic : Type} [DecidableEq Topic] :
    Registry Topic → Topic → Option (List SenderId)
  | [], _ => none
  | (k, v) :: rest, t => if k = t then some v else regGet rest t

/-- The ordered sender list registered under a topic (empty when absent). -/
def senders {Topic : Type} [DecidableEq Topic] (reg : Registry Topic)
    (t : Topic) : List SenderId :=
  (regGet reg t).getD []

/-- `self.publisher.subscribers.entry(topic).or_insert_with(|| Vec::new()).push(tx.clone())`
(lib.rs lines 101-102). -/
def regPush {Topic : Type} [DecidableEq Topic] :
    Registry Topic → Topic → SenderId → Registry Topic
  | [], t, i => [(t, [i])]
  | (k, v) :: rest, t, i =>
      if k = t then (k, v ++ [i]) :: rest else (k, v) :: regPush rest t i

/-- The state of all mpsc channels of one network: per channel id, the queued
messages (arrival order) and whether the consuming side is still alive. -/
structure BusState (Topic Content : Type) where
  queues : List (List (Topic × Content))
  alive : List Bool

/-- `subscriber.send((topic.clone(), content.clone())).unwrap_or(())`
(lib.rs line 84): enqueue succeeds iff the `Receiver` has not been dropped;
a failure is discarded. -/
def send {Topic Content : Type} (st : BusState Topic Content) (i : SenderId)
    (m : Topic × Content) : BusState Topic Content :=
  if st.alive.getD i false then
    ⟨st.queues.set i (st.queues.getD i [] ++ [m]), st.alive⟩
  else st

/-- `Publisher::publish` (lib.rs lines 77-86): look the topic up; on a miss
return with no effect; on a hit send a clone of the pair to every sender in
the registered order. -/
def publish {Topic Content : Type} [DecidableEq Topic] (reg : Registry Topic)
    (t : Topic) (c : Content) (st : BusState Topic Content) :
    BusState Topic Content :=
  match regGet reg t with
  | none => st
  | some outbox => outbox.foldl (fun s i => send s i (t, c)) st

/-- `Subscriber::fetch` (lib.rs lines 48-55): drain all queued messages in
arrival order; the queue is left empty. -/
def fetch {Topic Content : Type} (st : BusState Topic Content) (i : SenderId) :
    List (Topic × Content) × BusState Topic Content :=
  (st.queues.getD i [], ⟨st.queues.set i [], st.alive⟩)

/-- Dropping a `Subscriber` handle drops the `Receiver`, closing the
consuming side of its channel. -/
def dropSubscriber {Topic Content : Type} (st : BusState Topic Content)
    (i : SenderId) : BusState Topic Content :=
  ⟨st.queues, st.alive.set i false⟩

/-- `Builder` (lib.rs lines 89-92) together with the channels created so far:
the registry under construction plus the channel world state. -/
structure Builder (Topic Content : Type) where
  registry : Registry Topic
  st : BusState Topic Content

/-- `Publisher::new()` (lib.rs lines 67-73): a builder over an empty map,
before any channel exists. -/
def newBuilder {Topic Content : Type} : Builder Topic Content :=
  ⟨[], ⟨[], []⟩⟩

/-- `Builder::add_subscriber` (lib.rs lines 97-106): create one fresh channel
(`mpsc::channel()`), push its sender under every topic of the list in order,
and hand back the subscriber, identified by the fresh channel id. -/
def addSubscriber {Topic Content : Type} [DecidableEq Topic]
    (b : Builder Topic Content) (topics : List Topic) :
    Builder Topic Content × SenderId :=
  let i := b.st.queues.length
  (⟨topics.foldl (fun r t => regPush r t i) b.registry,
    ⟨b.st.queues ++ [[]], b.st.alive ++ [true]⟩⟩, i)

/-- `Builder::build` (lib.rs lines 109-111): consume the builder, handing the
finished registry to the publisher. -/
def build {Topic Content : Type} (b : Builder Topic Content) : Registry Topic :=
  b.registry

/-- Run a whole setup phase: one `add_subscriber` call per list of `calls`.
The subscriber of call `k` gets channel id `b.st.queues.length + k`. -/
def buildFrom {Topic Content : Type} [DecidableEq Topic]
    (b : Builder Topic Content) : List (List Topic) → Builder Topic Content
  | [] => b
  | ts :: rest => buildFrom (addSubscriber b ts).1 rest

/-- A network set up from scratch by the calls `calls`; the subscriber of
call `k` has channel id `k`. -/
def buildNetwork {Topic Content : Type} [DecidableEq Topic]
    (calls : List (List Topic)) : Builder Topic Content :=
  buildFrom newBuilder calls

/-- A sequence of `publish` calls against a frozen registry. -/
def applyPubs {Topic Content : Type} [DecidableEq Topic] (reg : Registry Topic)
    (pubs : List (Topic × Content)) (st : BusState Topic Content) :
    BusState Topic Content :=
  pubs.foldl (fun s p => publish reg p.1 p.2 s) st

/-- The sender ids registered under topic `t` by the calls `calls` when the
first call allocates channel id `n`: one occurrence per registration, calls in
order, duplicate topics within one call giving consecutive duplicates. -/
def fanoutIds {Topic : Type} [DecidableEq Topic] (t : Topic) (n : Nat) :
    List (List Topic) → List SenderId
  | [] => []
  | ts :: rest => List.replicate (ts.count t) n ++ fanoutIds t (n + 1) rest

/-- `publish` viewed as acting on the whole network, publisher included: the
receiver of `Publisher::publish` is `&self`, so the registry component is
read-only and handed back as it was. -/
def publishNet {Topic Content : Type} [DecidableEq Topic] (reg : Registry Topic)
    (t : Topic) (c : Content) (st : BusState Topic Content) :
    Registry Topic × BusState Topic Content :=
  (reg, publish reg t c st)

/-- `#[derive(Clone)]` on `Publisher` (lib.rs line 60): cloning allocates a
fresh copy of the `subscribers` map whose `Sender` entries are clones feeding
the same channels (same ids). Publishers are slots in a heap of registries;
the clone occupies a fresh slot holding a copy of the original's value. -/
def clonePublisher {Topic : Type} (regs : List (Registry Topic)) (p : Nat) :
    List (Registry Topic) × Nat :=
  (regs ++ [regs.getD p []], regs.length)

/-! ## Basic list helpers -/

theorem getD_set_same {α : Type} (l : List α) (i : Nat) (x d : α)
    (h : i < l.length) : (l.set i x).getD i d = x := by
  simp [List.getD_eq_getElem?_getD, List.getElem?_set, h]

theorem getD_set_other {α : Type} (l : List α) (i j : Nat) (x d : α)
    (h : i ≠ j) : (l.set i x).getD j d = l.getD j d := by
  simp [List.getD_eq_getElem?_getD, List.getElem?_set, h]

theorem getD_set_default {α : Type} (l : List α) (i : Nat) (d : α) :
    (l.set i d).getD i d = d := by
  rcases Nat.lt_or_ge i l.length with h | h
  · simp [List.getD_eq_getElem?_getD, List.getElem?_set, h]
  · rw [List.set_eq_of_length_le h]
    simp [List.getD_eq_getElem?_getD, List.getElem?_eq_none h]

theorem getD_replicate {α : Type} (n i : Nat) (d : α) :
    (List.replicate n d).getD i d = d := by
  simp only [List.getD_eq_getElem?_getD, List.getElem?_replicate]
  split <;> rfl

theorem getD_replicate_of_lt {α : Type} (n i : Nat) (a d : α) (h : i < n) :
    (List.replicate n a).getD i d = a := by
  simp [List.getD_eq_getElem?_getD, List.getElem?_replicate, h]

theorem getD_concat_length {α : Type} (l : List α) (x d : α) :
    (l ++ [x]).getD l.length d = x := by
  simp [List.getD_eq_getElem?_getD, List.getElem?_concat_length]

/-! ## Behaviour of a single `send` -/

section SendLemmas

variable {Topic Content : Type}

theorem send_alive (st : BusState Topic Content) (i : SenderId)
    (m : Topic × Content) : (send st i m).alive = st.alive := by
  unfold send; split <;> rfl

theorem send_queues_length (st : BusState Topic Content) (i : SenderId)
    (m : Topic × Content) : (send st i m).queues.length = st.queues.length := by
  unfold send; split <;> simp

theorem send_queue_other (st : BusState Topic Content) (i j : SenderId)
    (m : Topic × Content) (h : i ≠ j) :
    (send st i m).queues.getD j [] = st.queues.getD j [] := by
  unfold send
  split
  · exact getD_set_other _ _ _ _ _ h
  · rfl

theorem send_queue_same (st : BusState Topic Content) (i : SenderId)
    (m : Topic × Content) (ha : st.alive.getD i false = true)
    (hl : i < st.queues.length) :
    (send st i m).queues.getD i [] = st.queues.getD i [] ++ [m] := by
  unfold send
  rw [if_pos ha]
  exact getD_set_same _ _ _ _ hl

theorem send_dead (st : BusState Topic Content) (i : SenderId)
    (m : Topic × Content) (hd : st.alive.getD i false = false) :
    send st i m = st := by
  unfold send
  rw [hd]
  rfl

end SendLemmas

/-! ## Behaviour of the fan-out loop of `publish` -/

section FoldLemmas

variable {Topic Content : Type}

theorem foldSend_alive (l : List SenderId) (st : BusState Topic Content)
    (m : Topic × Content) :
    (l.foldl (fun s j => send s j m) st).alive = st.alive := by
  induction l generalizing st with
  | nil => rfl
  | cons j l ih => simp only [List.foldl_cons]; rw [ih, send_alive]

theorem foldSend_queues_length (l : List SenderId) (st : BusState Topic Content)
    (m : Topic × Content) :
    (l.foldl (fun s j => send s j m) st).queues.length = st.queues.length := by
  induction l generalizing st with
  | nil => rfl
  | cons j l ih => simp only [List.foldl_cons]; rw [ih, send_queues_length]

theorem foldSend_queue_notMem (l : List SenderId) (st : BusState Topic Content)
    (m : Topic × Content) (i : SenderId) (h : i ∉ l) :
    (l.foldl (fun s j => send s j m) st).queues.getD i [] =
      st.queues.getD i [] := by
  induction l generalizing st with
  | nil => rfl
  | cons j l ih =>
    simp only [List.mem_cons, not_or] at h
    simp only [List.foldl_cons]
    rw [ih _ h.2, send_queue_other _ _ _ _ (fun hji => h.1 hji.symm)]

theorem foldSend_queue_dead (l : List SenderId) (st : BusState Topic Content)
    (m : Topic × Content) (i : SenderId) (hd : st.alive.getD i false = false) :
    (l.foldl (fun s j => send s j m) st).queues.getD i [] =
      st.queues.getD i [] := by
  induction l generalizing st with
  | nil => rfl
  | cons j l ih =>
    simp only [List.foldl_cons]
    rw [ih _ (by rw [send_alive]; exact hd)]
    by_cases hj : j = i
    · rw [hj, send_dead _ _ _ hd]
    · exact send_queue_other _ _ _ _ hj

theorem foldSend_queue_count [DecidableEq Topic] [DecidableEq Content]
    (l : List SenderId) (st : BusState Topic Content) (m : Topic × Content)
    (i : SenderId) (ha : st.alive.getD i false = true)
    (hl : i < st.queues.length) :
    ((l.foldl (fun s j => send s j m) st).queues.getD i []).count m =
      (st.queues.getD i []).count m + l.count i := by
  induction l generalizing st with
  | nil => simp
  | cons j l ih =>
    simp only [List.foldl_cons, List.count_cons]
    by_cases hj : j = i
    · subst hj
      rw [ih _ (by rw [send_alive]; exact ha)
            (by rw [send_queues_length]; exact hl),
          send_queue_same _ _ _ ha hl]
      simp [List.count_append]
      omega
    · rw [ih _ (by rw [send_alive]; exact ha)
            (by rw [send_queues_length]; exact hl),
          send_queue_other _ _ _ _ hj]
      simp [hj]

end FoldLemmas

/-! ## Behaviour of `publish` and of publish sequences -/

section PublishLemmas

variable {Topic Content : Type} [DecidableEq Topic]

theorem publish_eq_foldl_senders (reg : Registry Topic) (t : Topic)
    (c : Content) (st : BusState Topic Content) :
    publish reg t c st = (senders reg t).foldl (fun s i => send s i (t, c)) st := by
  unfold publish senders
  cases regGet reg t <;> rfl

theorem publish_alive (reg : Registry Topic) (t : Topic) (c : Content)
    (st : BusState Topic Content) : (publish reg t c st).alive = st.alive := by
  rw [publish_eq_foldl_senders]; exact foldSend_alive _ _ _

theorem publish_queues_length (reg : Registry Topic) (t : Topic) (c : Content)
    (st : BusState Topic Content) :
    (publish reg t c st).queues.length = st.queues.length := by
  rw [publish_eq_foldl_senders]; exact foldSend_queues_length _ _ _

theorem publish_queue_notMem (reg : Registry Topic) (t : Topic) (c : Content)
    (st : BusState Topic Content) (i : SenderId) (h : i ∉ senders reg t) :
    (publish reg t c st).queues.getD i [] = st.queues.getD i [] := by
  rw [publish_eq_foldl_senders]; exact foldSend_queue_notMem _ _ _ _ h

theorem publish_queue_dead (reg : Registry Topic) (t : Topic) (c : Content)
    (st : BusState Topic Content) (d : SenderId)
    (hd : st.alive.getD d false = false) :
    (publish reg t c st).queues.getD d [] = st.queues.getD d [] := by
  rw [publish_eq_foldl_senders]; exact foldSend_queue_dead _ _ _ _ hd

theorem publish_queue_count [DecidableEq Content] (reg : Registry Topic)
    (t : Topic) (c : Content) (st : BusState Topic Content) (i : SenderId)
    (ha : st.alive.getD i false = true) (hl : i < st.queues.length) :
    ((publish reg t c st).queues.getD i []).count (t, c) =
      (st.queues.getD i []).count (t, c) + (senders reg t).count i := by
  rw [publish_eq_foldl_senders]; exact foldSend_queue_count _ _ _ _ ha hl

theorem applyPubs_queue_notMem (reg : Registry Topic)
    (pubs : List (Topic × Content)) (st : BusState Topic Content) (i : SenderId)
    (h : ∀ p ∈ pubs, i ∉ senders reg p.1) :
    (applyPubs reg pubs st).queues.getD i [] = st.queues.getD i [] := by
  induction pubs generalizing st with
  | nil => rfl
  | cons p pubs ih =>
    simp only [applyPubs, List.foldl_cons] at *
    rw [ih _ fun q hq => h q (List.mem_cons_of_mem _ hq),
        publish_queue_notMem _ _ _ _ _ (h p (List.mem_cons_self _ _))]

end PublishLemmas

/-! ## What the setup phase puts into the registry -/

section RegistryLemmas

variable {Topic Content : Type} [DecidableEq Topic]

theorem senders_regPush (r : Registry Topic) (u : Topic) (j : SenderId)
    (t : Topic) :
    senders (regPush r u j) t = senders r t ++ (if t = u then [j] else []) := by
  induction r with
  | nil =>
    by_cases h : t = u
    · subst h; simp [senders, regPush, regGet]
    · simp [senders, regPush, regGet, h, Ne.symm h]
  | cons kv r ih =>
    obtain ⟨k, v⟩ := kv
    by_cases hku : k = u
    · subst hku
      by_cases hkt : k = t
      · subst hkt; simp [senders, regPush, regGet]
      · simp [senders, regPush, regGet, hkt, Ne.symm hkt]
    · by_cases hkt : k = t
      · subst hkt
        simp [senders, regPush, regGet, hku, Ne.symm hku]
      · simpa [senders, regPush, regGet, hku, hkt] using ih

theorem senders_foldPush (ts : List Topic) (r : Registry Topic) (j : SenderId)
    (t : Topic) :
    senders (ts.foldl (fun r x => regPush r x j) r) t =
      senders r t ++ List.replicate (ts.count t) j := by
  induction ts generalizing r with
  | nil => simp
  | cons x ts ih =>
    simp only [List.foldl_cons, List.count_cons]
    rw [ih, senders_regPush]
    by_cases h : t = x
    · subst h
      simp [List.replicate_succ, List.append_assoc]
    · simp [h, Ne.symm h]

theorem buildFrom_queues (calls : List (List Topic))
    (b : Builder Topic Content) :
    (buildFrom b calls).st.queues =
      b.st.queues ++ List.replicate calls.length [] := by
  induction calls generalizing b with
  | nil => simp [buildFrom]
  | cons ts rest ih =>
    rw [buildFrom, ih]
    simp [addSubscriber, List.replicate_succ, List.append_assoc]

theorem buildFrom_alive (calls : List (List Topic))
    (b : Builder Topic Content) :
    (buildFrom b calls).st.alive =
      b.st.alive ++ List.replicate calls.length true := by
  induction calls generalizing b with
  | nil => simp [buildFrom]
  | cons ts rest ih =>
    rw [buildFrom, ih]
    simp [addSubscriber, List.replicate_succ, List.append_assoc]

theorem buildFrom_senders (calls : List (List Topic))
    (b : Builder Topic Content) (t : Topic) :
    senders (buildFrom b calls).registry t =
      senders b.registry t ++ fanoutIds t b.st.queues.length calls := by
  induction calls generalizing b with
  | nil => simp [buildFrom, fanoutIds]
  | cons ts rest ih =>
    rw [buildFrom, ih]
    simp only [addSubscriber, List.length_append, List.length_cons,
      List.length_nil, fanoutIds]
    rw [senders_foldPush, List.append_assoc]

theorem count_fanoutIds_lt (calls : List (List Topic)) (n i : Nat) (t : Topic)
    (h : i < n) : (fanoutIds t n calls).count i = 0 := by
  induction calls generalizing n with
  | nil => rfl
  | cons ts rest ih =>
    simp only [fanoutIds, List.count_append, List.count_replicate]
    rw [ih (n + 1) (Nat.lt_succ_of_lt h)]
    simp [Nat.ne_of_gt h]

theorem count_fanoutIds_ge (calls : List (List Topic)) (n i : Nat) (t : Topic)
    (h : n ≤ i) :
    (fanoutIds t n calls).count i = ((calls.getD (i - n) []).count t) := by
  induction calls generalizing n with
  | nil => simp [fanoutIds]
  | cons ts rest ih =>
    simp only [fanoutIds, List.count_append, List.count_replicate]
    rcases Nat.eq_or_lt_of_le h with he | hlt
    · subst he
      rw [count_fanoutIds_lt rest (n + 1) n t (Nat.lt_succ_self n)]
      simp
    · have hni : n ≠ i := Nat.ne_of_lt hlt
      have h1 : n + 1 ≤ i := hlt
      rw [ih (n + 1) h1]
      have h2 : i - n = (i - (n + 1)) + 1 := by omega
      simp [hni, h2]

theorem count_senders_buildNetwork (calls : List (List Topic)) (i : SenderId)
    (t : Topic) :
    (senders (buildNetwork calls : Builder Topic Content).registry t).count i =
      ((calls.getD i []).count t) := by
  rw [buildNetwork, buildFrom_senders]
  simp only [newBuilder, senders, regGet, Option.getD_none, List.length_nil,
    List.nil_append, List.count_nil]
  exact count_fanoutIds_ge calls 0 i t (Nat.zero_le i)

theorem buildNetwork_queue (calls : List (List Topic)) (i : SenderId) :
    (buildNetwork calls : Builder Topic Content).st.queues.getD i [] = [] := by
  rw [buildNetwork, buildFrom_queues]
  simp only [newBuilder, List.nil_append]
  exact getD_replicate _ _ _

theorem buildNetwork_queues_length (calls : List (List Topic)) :
    (buildNetwork calls : Builder Topic Content).st.queues.length =
      calls.length := by
  rw [buildNetwork, buildFrom_queues]
  simp [newBuilder]

theorem buildNetwork_alive (calls : List (List Topic)) (i : SenderId)
    (h : i < calls.length) :
    (buildNetwork calls : Builder Topic Content).st.alive.getD i false = true := by
  rw [buildNetwork, buildFrom_alive]
  simp only [newBuilder, List.nil_append]
  exact getD_replicate_of_lt _ _ _ _ h

theorem notMem_senders_buildNetwork (calls : List (List Topic)) (i : SenderId)
    (t : Topic) (h : t ∉ calls.getD i []) :
    i ∉ senders (buildNetwork calls : Builder Topic Content).registry t := by
  rw [← List.count_eq_zero, count_senders_buildNetwork, List.count_eq_zero]
  exact h

end RegistryLemmas

theorem fetch_fst {Topic Content : Type} (st : BusState Topic Content)
    (i : SenderId) : (fetch st i).fst = st.queues.getD i [] := rfl

/-! ## The claims -/

/-- Claim C1, counterexample: a subscriber whose single `add_subscriber` call
listed topic `0` twice is registered for topic `0` and is not dropped, yet a
single `publish 0 5` makes its next `fetch` contain the pair `(0, 5)` twice,
not exactly once. -/
theorem C1_single_delivery_counterexample :
    (0 : Nat) ∈ senders (buildNetwork [[0, 0]] : Builder Nat Nat).registry 0 ∧
    (buildNetwork [[(0 : Nat), 0]] : Builder Nat Nat).st.alive.getD 0 false = true ∧
    ¬ ((fetch (publish (buildNetwork [[(0 : Nat), 0]] : Builder Nat Nat).registry 0 (5 : Nat)
        (buildNetwork [[0, 0]] : Builder Nat Nat).st) 0).fst.count (0, 5) = 1) ∧
    ((fetch (publish (buildNetwork [[(0 : Nat), 0]] : Builder Nat Nat).registry 0 (5 : Nat)
        (buildNetwork [[0, 0]] : Builder Nat Nat).st) 0).fst.count (0, 5) = 2) := by
  decide

/-- Claim C1, amended: on a freshly built network, a single `publish t c`
makes subscriber `i`'s next `fetch` contain the pair `(t, c)` exactly as many
times as topic `t` appeared in that subscriber's `add_subscriber` topic list —
in particular exactly once when it appeared exactly once. -/
theorem C1_delivery_count_eq_registrations {Topic Content : Type}
    [DecidableEq Topic] [DecidableEq Content] (calls : List (List Topic))
    (i : SenderId) (t : Topic) (c : Content) (hi : i < calls.length) :
    ((fetch (publish (buildNetwork calls : Builder Topic Content).registry t c
        (buildNetwork calls : Builder Topic Content).st) i).fst).count (t, c) =
      (calls.getD i []).count t := by
  rw [fetch_fst,
    publish_queue_count _ _ _ _ _ (buildNetwork_alive calls i hi)
      (by rw [buildNetwork_queues_length]; exact hi),
    buildNetwork_queue, count_senders_buildNetwork]
  simp

/-- Witness for the amended C1: one subscriber on topic `0`, registered once;
after `publish 0 7` its fetch holds `(0, 7)` exactly once. -/
theorem C1_delivery_count_witness :
    (0 < ([[(0 : Nat)]] : List (List Nat)).length) ∧
    ((fetch (publish (buildNetwork [[(0 : Nat)]] : Builder Nat Nat).registry 0 (7 : Nat)
        (buildNetwork [[(0 : Nat)]] : Builder Nat Nat).st) 0).fst).count (0, 7) =
      (([[(0 : Nat)]] : List (List Nat)).getD 0 []).count 0 :=
  ⟨by decide, C1_delivery_count_eq_registrations [[0]] 0 0 7 (by decide)⟩

/-- Claim C2: a subscriber whose `add_subscriber` call listed only `T1` never
finds a `T2` message in its `fetch`, whatever sequence of `publish T2 _` calls
runs after `build`. -/
theorem C2_topic_isolation {Topic Content : Type} [DecidableEq Topic]
    (calls : List (List Topic)) (T1 T2 : Topic) (i : SenderId)
    (hne : T1 ≠ T2) (hi : i < calls.length)
    (honly : ∀ t ∈ calls.getD i [], t = T1)
    (pubs : List (Topic × Content)) (hpubs : ∀ p ∈ pubs, p.1 = T2)
    (c : Content) :
    (T2, c) ∉ (fetch (applyPubs (buildNetwork calls : Builder Topic Content).registry
        pubs (buildNetwork calls : Builder Topic Content).st) i).fst := by
  have hno : ∀ p ∈ pubs,
      i ∉ senders (buildNetwork calls : Builder Topic Content).registry p.1 := by
    intro p hp
    rw [hpubs p hp]
    refine notMem_senders_buildNetwork _ _ _ ?_
    intro hmem
    exact hne (honly T2 hmem).symm
  rw [fetch_fst, applyPubs_queue_notMem _ _ _ _ hno, buildNetwork_queue]
  exact List.not_mem_nil _

/-- Witness for C2: subscriber on `[1]` only; after `publish 2 9`, the pair
`(2, 9)` is not in its fetch. -/
theorem C2_topic_isolation_witness :
    ((1 : Nat) ≠ 2) ∧ (0 < ([[(1 : Nat)]] : List (List Nat)).length) ∧
    ((2 : Nat), (9 : Nat)) ∉ (fetch (applyPubs
        (buildNetwork [[(1 : Nat)]] : Builder Nat Nat).registry
        [((2 : Nat), (9 : Nat))]
        (buildNetwork [[(1 : Nat)]] : Builder Nat Nat).st) 0).fst :=
  ⟨by decide, by decide,
    C2_topic_isolation [[1]] 1 2 0 (by decide) (by decide) (by decide)
      [(2, 9)] (by decide) 9⟩

/-- Claim C3: a single subscriber registered for `T`; `publish T a` then
`publish T b` makes its next `fetch` return exactly `[(T, a), (T, b)]`. -/
theorem C3_order_preservation {Topic Content : Type} [DecidableEq Topic]
    (T : Topic) (a b : Content) :
    (fetch (publish (buildNetwork [[T]] : Builder Topic Content).registry T b
      (publish (buildNetwork [[T]] : Builder Topic Content).registry T a
        (buildNetwork [[T]] : Builder Topic Content).st)) 0).fst = [(T, a), (T, b)] := by
  simp [buildNetwork, buildFrom, addSubscriber, newBuilder, publish, regGet,
    regPush, send, fetch]

/-- Claim C4: publishing a topic absent from the registry is a total no-op:
the call returns with the publisher and every mailbox exactly as they were. -/
theorem C4_unknown_topic_noop {Topic Content : Type} [DecidableEq Topic]
    (reg : Registry Topic) (t : Topic) (c : Content)
    (st : BusState Topic Content) (h : regGet reg t = none) :
    publishNet reg t c st = (reg, st) := by
  simp [publishNet, publish, h]

/-- Witness for C4: the empty registry misses topic `0`; `publish 0 5`
changes nothing. -/
theorem C4_unknown_topic_noop_witness :
    regGet ([] : Registry Nat) 0 = none ∧
    publishNet ([] : Registry Nat) 0 (5 : Nat) ⟨[[]], [true]⟩ =
      (([] : Registry Nat), (⟨[[]], [true]⟩ : BusState Nat Nat)) :=
  ⟨rfl, C4_unknown_topic_noop [] 0 5 ⟨[[]], [true]⟩ rfl⟩

/-- Claim C5: `fetch` drains the whole queue in arrival order (the empty
sequence when nothing is queued), so a second `fetch` with no publish in
between returns the empty sequence. -/
theorem C5_drain_semantics {Topic Content : Type}
    (st : BusState Topic Content) (i : SenderId) :
    (fetch st i).fst = st.queues.getD i [] ∧
    (fetch (fetch st i).snd i).fst = [] := by
  refine ⟨rfl, ?_⟩
  show (st.queues.set i []).getD i [] = []
  exact getD_set_default _ _ _

/-- Claim C6: with subscriber `d` dropped (its `Receiver` gone) the failed
`send` is swallowed inside `publish` — it is a no-op on `d`'s queue, the call
still returns (our `publish` is a total function), and every still-alive
subscriber `i` receives one copy per registration under the topic. -/
theorem C6_dead_subscriber_swallowed {Topic Content : Type} [DecidableEq Topic]
    [DecidableEq Content] (reg : Registry Topic) (t : Topic) (c : Content)
    (st : BusState Topic Content) (d i : SenderId)
    (hd : st.alive.getD d false = false)
    (ha : st.alive.getD i false = true) (hl : i < st.queues.length) :
    (publish reg t c st).queues.getD d [] = st.queues.getD d [] ∧
    ((publish reg t c st).queues.getD i []).count (t, c) =
      (st.queues.getD i []).count (t, c) + (senders reg t).count i :=
  ⟨publish_queue_dead reg t c st d hd, publish_queue_count reg t c st i ha hl⟩

/-- Witness for C6: two subscribers on topic `0`; subscriber `0` is then
dropped; `publish 0 9` leaves queue `0` alone and still reaches
subscriber `1`. -/
theorem C6_dead_subscriber_witness :
    ((dropSubscriber (buildNetwork [[(0 : Nat)], [0]] : Builder Nat Nat).st 0).alive.getD 0 false
      = false) ∧
    ((dropSubscriber (buildNetwork [[(0 : Nat)], [0]] : Builder Nat Nat).st 0).alive.getD 1 false
      = true) ∧
    (1 < (dropSubscriber (buildNetwork [[(0 : Nat)], [0]] : Builder Nat Nat).st 0).queues.length) ∧
    ((publish (buildNetwork [[(0 : Nat)], [0]] : Builder Nat Nat).registry 0 (9 : Nat)
        (dropSubscriber (buildNetwork [[(0 : Nat)], [0]] : Builder Nat Nat).st 0)).queues.getD 0 []
      = (dropSubscriber (buildNetwork [[(0 : Nat)], [0]] : Builder Nat Nat).st 0).queues.getD 0 [] ∧
     ((publish (buildNetwork [[(0 : Nat)], [0]] : Builder Nat Nat).registry 0 (9 : Nat)
        (dropSubscriber (buildNetwork [[(0 : Nat)], [0]] : Builder Nat Nat).st 0)).queues.getD 1 []).count (0, 9)
      = ((dropSubscriber (buildNetwork [[(0 : Nat)], [0]] : Builder Nat Nat).st 0).queues.getD 1 []).count (0, 9)
        + (senders (buildNetwork [[(0 : Nat)], [0]] : Builder Nat Nat).registry 0).count 1) :=
  ⟨by decide, by decide, by decide,
    C6_dead_subscriber_swallowed _ 0 9 _ 0 1 (by decide) (by decide) (by decide)⟩

/-- Claim C7: an `add_subscriber` call listing topic `t` `k` times registers
that subscriber's sender `k` times under `t`, and a single `publish t c`
afterwards puts `k` copies of `(t, c)` into its next `fetch`. -/
theorem C7_duplicate_registration_delivery {Topic Content : Type}
    [DecidableEq Topic] [DecidableEq Content] (calls : List (List Topic))
    (i : SenderId) (t : Topic) (c : Content) (k : Nat)
    (hi : i < calls.length) (hk : (calls.getD i []).count t = k) :
    (senders (buildNetwork calls : Builder Topic Content).registry t).count i = k ∧
    ((fetch (publish (buildNetwork calls : Builder Topic Content).registry t c
        (buildNetwork calls : Builder Topic Content).st) i).fst).count (t, c) = k := by
  constructor
  · rw [count_senders_buildNetwork]; exact hk
  · rw [fetch_fst,
      publish_queue_count _ _ _ _ _ (buildNetwork_alive calls i hi)
        (by rw [buildNetwork_queues_length]; exact hi),
      buildNetwork_queue, count_senders_buildNetwork, hk]
    simp

/-- Witness for C7: the call `[0, 0]` registers its subscriber twice under
topic `0`, and `publish 0 5` double-delivers. -/
theorem C7_duplicate_registration_witness :
    (0 < ([[(0 : Nat), 0]] : List (List Nat)).length) ∧
    (([[(0 : Nat), 0]] : List (List Nat)).getD 0 []).count 0 = 2 ∧
    ((senders (buildNetwork [[(0 : Nat), 0]] : Builder Nat Nat).registry 0).count 0 = 2 ∧
     ((fetch (publish (buildNetwork [[(0 : Nat), 0]] : Builder Nat Nat).registry 0 (5 : Nat)
        (buildNetwork [[(0 : Nat), 0]] : Builder Nat Nat).st) 0).fst).count (0, 5) = 2) :=
  ⟨by decide, by decide,
    C7_duplicate_registration_delivery [[0, 0]] 0 0 5 2 (by decide) (by decide)⟩

/-- Claim C8: after `build` the registry is frozen — `publish` takes `&self`
and hands the registry back untouched — and the sender list under each topic
is exactly the registrations in registration order (`fanoutIds`), which is
the order the fan-out loop of `publish` walks. -/
theorem C8_registry_frozen_and_ordered {Topic Content : Type} [DecidableEq Topic]
    (calls : List (List Topic)) (t : Topic) :
    senders (buildNetwork calls : Builder Topic Content).registry t = fanoutIds t 0 calls ∧
    ∀ (reg : Registry Topic) (u : Topic) (c : Content) (st : BusState Topic Content),
      (publishNet reg u c st).fst = reg ∧
      publish reg u c st = (senders reg u).foldl (fun s i => send s i (u, c)) st := by
  refine ⟨?_, fun reg u c st => ⟨rfl, publish_eq_foldl_senders reg u c st⟩⟩
  rw [buildNetwork, buildFrom_senders]
  simp [newBuilder, senders, regGet]

/-- Claim C9, counterexample: `#[derive(Clone)]` deep-copies the
`subscribers` map, so the clone does not share the original's registry
object: the clone's slot differs from the original's and the heap now holds
two registries. -/
theorem C9_shared_registry_counterexample :
    (clonePublisher [[((0 : Nat), [0])]] 0).2 ≠ 0 ∧
    (clonePublisher [[((0 : Nat), [0])]] 0).1.length = 2 := by decide

/-- Claim C9, amended: a clone of a Publisher holds its own copy of the
registry, equal in value to the original's (its `Sender` clones feed the same
channels), so `publish` through the clone is observationally equivalent to
`publish` through the original: same mailboxes, same order, same resulting
channel state. -/
theorem C9_clone_observational_equivalence {Topic Content : Type}
    [DecidableEq Topic] (regs : List (Registry Topic)) (p : Nat) (t : Topic)
    (c : Content) (st : BusState Topic Content) :
    (clonePublisher regs p).fst.getD (clonePublisher regs p).snd [] = regs.getD p [] ∧
    publish ((clonePublisher regs p).fst.getD (clonePublisher regs p).snd []) t c st =
      publish (regs.getD p []) t c st := by
  have hv : (clonePublisher regs p).fst.getD (clonePublisher regs p).snd [] =
      regs.getD p [] := getD_concat_length regs (regs.getD p []) []
  exact ⟨hv, by rw [hv]⟩

/-- Claim C10: `add_subscriber` with an empty topic list leaves the registry
untouched, and the resulting subscriber's `fetch` is empty after any sequence
of publishes on the built network. -/
theorem C10_empty_topics_inert {Topic Content : Type} [DecidableEq Topic]
    (calls : List (List Topic)) (i : SenderId) (hi : i < calls.length)
    (hempty : calls.getD i [] = []) (pubs : List (Topic × Content)) :
    (∀ b : Builder Topic Content, (addSubscriber b []).fst.registry = b.registry) ∧
    (fetch (applyPubs (buildNetwork calls : Builder Topic Content).registry pubs
      (buildNetwork calls : Builder Topic Content).st) i).fst = [] := by
  refine ⟨fun b => rfl, ?_⟩
  have hno : ∀ p ∈ pubs,
      i ∉ senders (buildNetwork calls : Builder Topic Content).registry p.1 := by
    intro p hp
    refine notMem_senders_buildNetwork _ _ _ ?_
    rw [hempty]
    exact List.not_mem_nil _
  rw [fetch_fst, applyPubs_queue_notMem _ _ _ _ hno, buildNetwork_queue]

/-- Witness for C10: subscriber `0` registered with `[]`, subscriber `1` with
`[5]`; after `publish 5 7` subscriber `0` still fetches nothing. -/
theorem C10_empty_topics_witness :
    (0 < ([([] : List Nat), [5]] : List (List Nat)).length) ∧
    (([([] : List Nat), [5]] : List (List Nat)).getD 0 [] = []) ∧
    ((∀ b : Builder Nat Nat, (addSubscriber b []).fst.registry = b.registry) ∧
     (fetch (applyPubs (buildNetwork [([] : List Nat), [5]] : Builder Nat Nat).registry
        [((5 : Nat), (7 : Nat))]
        (buildNetwork [([] : List Nat), [5]] : Builder Nat Nat).st) 0).fst = []) :=
  ⟨by decide, by decide,
    C10_empty_topics_inert [([] : List Nat), [5]] 0 (by decide) (by decide) [(5, 7)]⟩

end Alewife
